import Mathlib

/-!
Verification of the product-catalog backend (FastAPI + SQLAlchemy + file
uploads) against its natural-language specification.

Shallow embedding conventions:
* `models.py` maps the `products` table.  The declarative model `Product`
  maps exactly the columns `id`, `name`, `description`, `price` — there is
  no `image` column or attribute.  `ProductRow` embeds that row type, and
  `productAttributes` lists the mapped attribute names.
* SQLAlchemy semantics used by the code and embedded here:
  - the declarative constructor `Product(**kwargs)` raises `TypeError`
    when a keyword is not an attribute of the model class;
  - reading a missing attribute (`instance.image`) raises `AttributeError`.
* Python exceptions that can occur in the embedded handlers are the type
  `PyExc`; a FastAPI handler maps them to an HTTP response (`HandlerResult`).
  The string form of `HTTPException` is rendered as
  `"<status>: <detail>"`; accented characters and apostrophes of the French
  detail strings are transliterated to plain ASCII.
* `uuid.uuid4()` is modelled as a draw from a fresh-name supply: the
  application state carries a counter, and a stored filename is the pair
  `StoredName` of the drawn identifier and the extension kept from the
  original filename (the rendered form would be `<uuid><ext>`; since real
  UUID renderings are fixed-width and dot-free, two names are equal exactly
  when their identifier and extension components are equal, so names are
  kept structural).  The upload directory is the list `files` of stored
  names; a product image reference (`/uploads/<name>`) is carried as the
  `StoredName` it points to.
* `price` is a value that the program only stores and returns, never
  computes with; it is embedded as `Int`.
-/

/-- Row of the `products` table as mapped by `models.Product`
(src/models.py lines 8-14): columns `id`, `name`, `description`, `price`.
There is no `image` column. -/
structure ProductRow where
  id : Nat
  name : String
  description : Option String
  price : Int
deriving DecidableEq, Repr

/-- The mapped attribute names of the declarative model `models.Product`,
in declaration order (src/models.py lines 11-14). -/
def productAttributes : List String :=
  ["id", "name", "description", "price"]

/-- A stored filename in the upload directory: the freshly drawn unique
identifier together with the extension taken from the original filename
(`f"\x7buuid.uuid4()\x7d\x7bfile_extension\x7d"`, src/main.py line 68). -/
structure StoredName where
  uuidId : Nat
  ext : String
deriving DecidableEq, Repr

/-- `schemas.ProductCreate` (src/schemas.py): `name`, optional
`description`, `price`, optional `image` reference. -/
structure ProductCreate where
  name : String
  description : Option String
  price : Int
  image : Option StoredName
deriving DecidableEq, Repr

/-- State of the Storage Backend: the rows of the `products` table plus
the next auto-increment primary key. -/
structure DBState where
  rows : List ProductRow
  nextId : Nat
deriving DecidableEq, Repr

/-- A multipart upload part as the handlers see it: declared filename
(`""` embeds an empty/falsy filename), declared content type, and the
declared size when known. -/
structure UploadFile where
  filename : String
  content_type : String
  size : Option Nat
deriving DecidableEq, Repr

/-- Whole application state: database, upload directory contents, and the
fresh-identifier supply modelling `uuid.uuid4()`. -/
structure AppState where
  db : DBState
  files : List StoredName
  uuidCounter : Nat
deriving DecidableEq, Repr

/-- Python exceptions raised by the embedded code. -/
inductive PyExc where
  | httpException : Nat → String → PyExc
  | typeError : String → PyExc
  | attributeError : String → PyExc
deriving DecidableEq, Repr

/-- `str(e)` for the exceptions above; `HTTPException` renders as
`"<status>: <detail>"`. -/
def strPyExc : PyExc → String
  | PyExc.httpException st det => toString st ++ ": " ++ det
  | PyExc.typeError msg => msg
  | PyExc.attributeError msg => msg

/-- Outcome of a request handler: a successful JSON body or an HTTP error
response with status code and detail. -/
inductive HandlerResult (α : Type) where
  | success : α → HandlerResult α
  | httpError : Nat → String → HandlerResult α
deriving DecidableEq, Repr

/-! ## crud.py -/

/-- `crud.get_product` (src/crud.py lines 5-6): point lookup by primary
key, `None` when absent. -/
def crud_get_product (db : DBState) (pid : Nat) : Option ProductRow :=
  db.rows.find? (fun r => r.id == pid)

/-- The keyword arguments `crud.create_product` passes to
`models.Product(...)` (src/crud.py lines 12-17): `name`, `description`,
`price`, `image`. -/
def createKwargs : List String :=
  ["name", "description", "price", "image"]

/-- `crud.create_product` (src/crud.py lines 11-21).  The SQLAlchemy
declarative constructor checks each keyword against the attributes of the
model class and raises `TypeError` on the first one that is not an
attribute; only if all keywords are attributes is the row inserted with
the next primary key and returned after commit/refresh.  Since `image` is
among `createKwargs` but not among `productAttributes`, the error branch
is the one actually taken. -/
def crud_create_product (db : DBState) (p : ProductCreate) :
    Except PyExc (DBState × ProductRow) :=
  match createKwargs.find? (fun k => !(productAttributes.contains k)) with
  | some k => Except.error (PyExc.typeError (k ++ " is an invalid keyword argument for Product"))
  | none =>
    let row : ProductRow :=
      { id := db.nextId, name := p.name, description := p.description, price := p.price }
    Except.ok ({ rows := db.rows ++ [row], nextId := db.nextId + 1 }, row)

/-- `crud.update_product` (src/crud.py lines 23-32): if the row exists,
overwrite `name`, `description`, `price` and commit.  The statement
`db_product.image = product.image` sets a plain, unmapped attribute on the
instance — `Product` has no `image` column — so nothing about the image is
persisted; the committed row carries only the three mapped fields. -/
def crud_update_product (db : DBState) (pid : Nat) (p : ProductCreate) :
    DBState × Option ProductRow :=
  match db.rows.find? (fun r => r.id == pid) with
  | none => (db, none)
  | some r =>
    let r2 : ProductRow :=
      { r with name := p.name, description := p.description, price := p.price }
    ({ db with rows := db.rows.map (fun q => if q.id == pid then r2 else q) }, some r2)

/-- `crud.delete_product` (src/crud.py lines 34-37): bulk delete by id,
returning whether the deleted row count was positive. -/
def crud_delete_product (db : DBState) (pid : Nat) : DBState × Bool :=
  let deleted := db.rows.countP (fun r => r.id == pid)
  ({ db with rows := db.rows.filter (fun r => !(r.id == pid)) }, decide (0 < deleted))

/-! ## main.py -/

/-- Python `str.startswith`: the second string read as a character list is
an initial segment of the first.  (Defined by structural recursion on the
character lists rather than through `String.startsWith`, whose byte-level
implementation does not reduce.) -/
def pyStartsWith (s pre : String) : Bool :=
  pre.data.isPrefixOf s.data

/-- Attribute access `product.image` on a `models.Product` instance
(src/main.py lines 159, 170, 205).  `models.Product` maps only `id`,
`name`, `description`, `price` (src/models.py lines 8-14), so the read
raises `AttributeError`. -/
def productImageAttr (_r : ProductRow) : Except PyExc (Option StoredName) :=
  Except.error (PyExc.attributeError "Product object has no attribute image")

/-- Extension part of Python `os.path.splitext` on a bare filename (no
directory separators, as uploads are): the suffix from the last dot,
unless every character before that dot is itself a dot, in which case the
extension is empty. -/
def splitextExt (p : String) : String :=
  let cs := p.data
  match cs.reverse.findIdx? (fun c => c == '.') with
  | none => ""
  | some rIdx =>
    let i := cs.length - 1 - rIdx
    if (cs.take i).any (fun c => c != '.') then String.mk (cs.drop i) else ""

/-- Writing a file of the given name into the upload directory
(`open(file_path, "wb")` overwrites an existing file of the same name, so
the directory behaves as a set of names). -/
def insertFile (files : List StoredName) (n : StoredName) : List StoredName :=
  if n ∈ files then files else files ++ [n]

/-- `main.save_upload_file` (src/main.py lines 63-77): when the original
filename is non-empty, draw a fresh unique identifier, keep the original
extension, write the file under the synthesized name and return its
reference; on an empty filename return `None` and write nothing. -/
def save_upload_file (s : AppState) (f : UploadFile) :
    AppState × Option StoredName :=
  if f.filename ≠ "" then
    let n : StoredName := { uuidId := s.uuidCounter, ext := splitextExt f.filename }
    ({ s with files := insertFile s.files n, uuidCounter := s.uuidCounter + 1 }, some n)
  else (s, none)

/-- Size guard of the handlers
(`if image.size and image.size > 5 * 1024 * 1024`, src/main.py lines 98
and 166): an unknown size skips the check, and a declared size of `0` is
falsy in Python but is also not greater than the bound, so the truthiness
guard collapses into the comparison. -/
def isOversized : Option Nat → Bool
  | none => false
  | some sz => decide (5 * 1024 * 1024 < sz)

/-- Tail of `main.create_product` after image handling (src/main.py lines
104-114): build the `ProductCreate` payload — `description or ""` turns a
missing or empty description into `""` — and insert it through
`crud.create_product`. -/
def createFinish (s : AppState) (name : String) (description : Option String)
    (price : Int) (imageUrl : Option StoredName) :
    AppState × Except PyExc ProductRow :=
  let productData : ProductCreate :=
    { name := name, description := some (description.getD ""), price := price,
      image := imageUrl }
  match crud_create_product s.db productData with
  | Except.error e => (s, Except.error e)
  | Except.ok r => ({ s with db := r.1 }, Except.ok r.2)

/-- `main.create_product`, handler of `POST /products/` (src/main.py lines
80-117).  The whole body runs inside `try:`; there is no
`except HTTPException: raise` clause here, so every exception — the
handler's own 400 `HTTPException`s included — is caught by the blanket
`except Exception` and re-raised as a 500 response. -/
def main_create_product (s : AppState) (name : String)
    (description : Option String) (price : Int) (image : Option UploadFile) :
    AppState × HandlerResult ProductRow :=
  let body : AppState × Except PyExc ProductRow :=
    match image with
    | none => createFinish s name description price none
    | some f =>
      if f.filename ≠ "" then
        if !(pyStartsWith f.content_type "image/") then
          (s, Except.error (PyExc.httpException 400 "Le fichier doit etre une image"))
        else if isOversized f.size then
          (s, Except.error (PyExc.httpException 400 "L image ne doit pas depasser 5MB"))
        else
          let r := save_upload_file s f
          createFinish r.1 name description price r.2
      else createFinish s name description price none
  match body with
  | (s2, Except.ok row) => (s2, HandlerResult.success row)
  | (s2, Except.error e) =>
    (s2, HandlerResult.httpError 500 ("Erreur lors de la creation: " ++ strPyExc e))

/-- Tail of `main.update_product` after image handling (src/main.py lines
179-192): build the payload (`description or ""` as in create), run
`crud.update_product`, and raise 404 if it returned `None`. -/
def updateFinish (s : AppState) (pid : Nat) (name : String)
    (description : Option String) (price : Int) (imageUrl : Option StoredName) :
    AppState × Except PyExc ProductRow :=
  let productData : ProductCreate :=
    { name := name, description := some (description.getD ""), price := price,
      image := imageUrl }
  let r := crud_update_product s.db pid productData
  match r.2 with
  | none => ({ s with db := r.1 }, Except.error (PyExc.httpException 404 "Echec de la mise a jour"))
  | some row => ({ s with db := r.1 }, Except.ok row)

/-- `main.update_product`, handler of `PUT /products/{id}` (src/main.py
lines 142-197).  404 when the id resolves to no row; otherwise line 159
(`image_url = existing_product.image`) reads the missing attribute, which
raises `AttributeError`, making everything after it unreachable.  The
unreachable remainder is still embedded under the `Except.ok` branch:
validation of a supplied image, deletion of the old file (line 170 reads
`existing_product.image` a second time), saving of the new file, and the
row update.  `except HTTPException: raise` passes HTTP errors through;
any other exception becomes a 500 response. -/
def main_update_product (s : AppState) (pid : Nat) (name : String)
    (description : Option String) (price : Int) (image : Option UploadFile) :
    AppState × HandlerResult ProductRow :=
  let body : AppState × Except PyExc ProductRow :=
    match crud_get_product s.db pid with
    | none => (s, Except.error (PyExc.httpException 404 "Produit non trouve"))
    | some existing =>
      match productImageAttr existing with
      | Except.error e => (s, Except.error e)
      | Except.ok imageUrl0 =>
        match image with
        | none => updateFinish s pid name description price imageUrl0
        | some f =>
          if f.filename ≠ "" then
            if !(pyStartsWith f.content_type "image/") then
              (s, Except.error (PyExc.httpException 400 "Le fichier doit etre une image"))
            else if isOversized f.size then
              (s, Except.error (PyExc.httpException 400 "L image ne doit pas depasser 5MB"))
            else
              match productImageAttr existing with
              | Except.error e => (s, Except.error e)
              | Except.ok oldImage =>
                let s1 := match oldImage with
                  | some n => { s with files := s.files.filter (fun m => !(m == n)) }
                  | none => s
                let r := save_upload_file s1 f
                updateFinish r.1 pid name description price r.2
          else updateFinish s pid name description price imageUrl0
  match body with
  | (s2, Except.ok row) => (s2, HandlerResult.success row)
  | (s2, Except.error (PyExc.httpException st det)) => (s2, HandlerResult.httpError st det)
  | (s2, Except.error e) =>
    (s2, HandlerResult.httpError 500 ("Erreur lors de la mise a jour: " ++ strPyExc e))

/-- Tail of `main.delete_product` (src/main.py lines 211-216): run
`crud.delete_product` (which commits even when nothing matched) and raise
404 when no row was deleted. -/
def deleteFinish (s : AppState) (pid : Nat) : AppState × Except PyExc String :=
  let r := crud_delete_product s.db pid
  if r.2 then ({ s with db := r.1 }, Except.ok "Produit supprime avec succes")
  else ({ s with db := r.1 }, Except.error (PyExc.httpException 404 "Produit non trouve"))

/-- `main.delete_product`, handler of `DELETE /products/{id}` (src/main.py
lines 200-221).  When the row exists,
`if existing_product and existing_product.image:` evaluates the missing
attribute and raises `AttributeError` (caught as a 500 response); the
unreachable file removal is embedded under the `Except.ok` branch.  When
the row does not exist the file block is skipped and `crud.delete_product`
reports no deletion, yielding 404. -/
def main_delete_product (s : AppState) (pid : Nat) :
    AppState × HandlerResult String :=
  let body : AppState × Except PyExc String :=
    match crud_get_product s.db pid with
    | none => deleteFinish s pid
    | some existing =>
      match productImageAttr existing with
      | Except.error e => (s, Except.error e)
      | Except.ok imgRef =>
        let s1 := match imgRef with
          | some n => { s with files := s.files.filter (fun m => !(m == n)) }
          | none => s
        deleteFinish s1 pid
  match body with
  | (s2, Except.ok msg) => (s2, HandlerResult.success msg)
  | (s2, Except.error (PyExc.httpException st det)) => (s2, HandlerResult.httpError st det)
  | (s2, Except.error e) =>
    (s2, HandlerResult.httpError 500 ("Erreur lors de la suppression: " ++ strPyExc e))

/-! ## Concrete states used by the theorems -/

/-- A fresh application state: empty table, empty upload directory. -/
def emptyState : AppState :=
  { db := { rows := [], nextId := 1 }, files := [], uuidCounter := 0 }

/-- A concrete existing row. -/
def chairRow : ProductRow :=
  { id := 1, name := "Chair", description := some "Oak", price := 49 }

/-- A state holding one product row and one unrelated stored file. -/
def chairState : AppState :=
  { db := { rows := [chairRow], nextId := 2 },
    files := [{ uuidId := 7, ext := ".png" }], uuidCounter := 8 }

/-! ## Helper lemmas -/

/-- On any `PUT /products/{id}` request the handler either answers 404
(no such row) or hits the `AttributeError` at line 159 and answers 500;
in both cases the application state is returned unchanged. -/
theorem main_update_product_shape (s : AppState) (pid : Nat) (name : String)
    (description : Option String) (price : Int) (image : Option UploadFile) :
    main_update_product s pid name description price image =
      match crud_get_product s.db pid with
      | none => (s, HandlerResult.httpError 404 "Produit non trouve")
      | some _ => (s, HandlerResult.httpError 500
          "Erreur lors de la mise a jour: Product object has no attribute image") := by
  unfold main_update_product
  cases crud_get_product s.db pid <;> rfl

/-- `POST /products/` with a non-empty-named upload that fails the type
check or the size check answers with an HTTP error and leaves the whole
application state unchanged. -/
theorem main_create_product_rejects (s : AppState) (name : String)
    (description : Option String) (price : Int) (f : UploadFile)
    (hfn : f.filename ≠ "")
    (hbad : pyStartsWith f.content_type "image/" = false ∨ isOversized f.size = true) :
    ∃ det, main_create_product s name description price (some f) =
      (s, HandlerResult.httpError 500 det) := by
  cases hst : pyStartsWith f.content_type "image/" with
  | false =>
    refine ⟨"Erreur lors de la creation: 400: Le fichier doit etre une image", ?_⟩
    unfold main_create_product
    simp only [hst, Bool.not_false, if_true, if_pos hfn]
    rfl
  | true =>
    rcases hbad with hb | hb
    · rw [hst] at hb
      exact absurd hb (by simp)
    · refine ⟨"Erreur lors de la creation: 400: L image ne doit pas depasser 5MB", ?_⟩
      unfold main_create_product
      simp only [hst, hb, Bool.not_true, Bool.false_eq_true, if_false, if_true, if_pos hfn]
      rfl

/-- A freshly written file is in the directory afterwards. -/
theorem mem_insertFile_self (files : List StoredName) (n : StoredName) :
    n ∈ insertFile files n := by
  unfold insertFile
  split
  · assumption
  · simp

/-- Writing a file keeps every file already present. -/
theorem mem_insertFile_of_mem {files : List StoredName} {m : StoredName}
    (n : StoredName) (h : m ∈ files) : m ∈ insertFile files n := by
  unfold insertFile
  split
  · exact h
  · exact List.mem_append_left _ h

/-! ## Claims -/

/-- Claim C1: the spec asserts that for every product created via create,
a get on the assigned id returns the given name, description, price and
image.  The code refutes this: `models.Product` has no `image` attribute,
so the call `models.Product(name=..., description=..., price=..., image=...)`
in `crud.create_product` raises `TypeError` on every input — no product is
ever created, no id is ever assigned, and the image in particular could
never be persisted. -/
theorem c1_crud_create_product_always_raises (db : DBState) (p : ProductCreate) :
    crud_create_product db p =
      Except.error (PyExc.typeError "image is an invalid keyword argument for Product") := rfl

/-- Claim C2: the spec asserts the persisted `products` table has exactly
the columns id, name, description, price and image.  The code refutes
this: `models.Product` maps only id, name, description and price — there
is no image column — even though `crud.create_product` passes an `image`
keyword, so the code contradicts its own callers. -/
theorem c2_products_table_has_no_image_column :
    productAttributes = ["id", "name", "description", "price"] ∧
      "image" ∉ productAttributes ∧ "image" ∈ createKwargs := by decide

/-- Claim C3: the spec asserts that when an update replaces an existing
image, the old file is deleted only after the new file is written and only
if the row update succeeds.  The code refutes this scenario wholesale: on
a PUT with a valid new image for an existing row, line 159
(`image_url = existing_product.image`) raises `AttributeError` before any
file operation, the response is 500, and the state — rows and upload
directory alike — is exactly unchanged: no new file is ever written and no
row update ever happens (and in the code as written the old-file removal
at lines 169-174 would in any case precede the save at line 177 and the
row update at line 188). -/
theorem c3_update_with_new_image_fails_before_any_file_operation :
    main_update_product chairState 1 "Chair" (some "Oak") 49
        (some { filename := "new.png", content_type := "image/png", size := some 100 }) =
      (chairState, HandlerResult.httpError 500
        "Erreur lors de la mise a jour: Product object has no attribute image") := by decide

/-- Claim C4: the spec asserts that a POST with a non-image content type
or an oversized image answers 400.  The code refutes this:
`main.create_product` has no `except HTTPException: raise` clause, so its
own 400 `HTTPException` is caught by the blanket `except Exception` and
re-raised as a 500 response, as evaluated here on a `text/plain` upload. -/
theorem c4_bad_image_type_create_returns_500_not_400 :
    main_create_product emptyState "Chair" none 49
        (some { filename := "a.txt", content_type := "text/plain", size := some 10 }) =
      (emptyState, HandlerResult.httpError 500
        "Erreur lors de la creation: 400: Le fichier doit etre une image") := by decide

/-- Claim C5: the spec asserts that an update without a new image
overwrites name, description and price and keeps the previous image.  The
code refutes this: on an existing id the handler raises `AttributeError`
at `existing_product.image` (line 159) and answers 500 with the row — name,
description and price included — exactly unchanged. -/
theorem c5_update_without_image_returns_500_row_untouched :
    main_update_product chairState 1 "Table" (some "Pine") 99 none =
      (chairState, HandlerResult.httpError 500
        "Erreur lors de la mise a jour: Product object has no attribute image") := by decide

/-- Claim C6: an upload rejected for a bad content type or an oversized
declared size leads to no persistence at all: on both `POST /products/`
and `PUT /products/{id}` the response is an HTTP error and the application
state — upload directory and table rows alike — is returned unchanged, so
no file is written and no row is created or modified. -/
theorem c6_rejected_upload_leaves_no_persistence (s : AppState) (name : String)
    (description : Option String) (price : Int) (pid : Nat) (f : UploadFile)
    (hfn : f.filename ≠ "")
    (hbad : pyStartsWith f.content_type "image/" = false ∨ isOversized f.size = true) :
    ((main_create_product s name description price (some f)).1 = s ∧
      ∃ st det, (main_create_product s name description price (some f)).2 =
        HandlerResult.httpError st det) ∧
    ((main_update_product s pid name description price (some f)).1 = s ∧
      ∃ st det, (main_update_product s pid name description price (some f)).2 =
        HandlerResult.httpError st det) := by
  constructor
  · obtain ⟨det, hc⟩ := main_create_product_rejects s name description price f hfn hbad
    rw [hc]
    exact ⟨rfl, 500, det, rfl⟩
  · have hu := main_update_product_shape s pid name description price (some f)
    cases hg : crud_get_product s.db pid with
    | none =>
      rw [hg] at hu
      rw [hu]
      exact ⟨rfl, 404, _, rfl⟩
    | some r =>
      rw [hg] at hu
      rw [hu]
      exact ⟨rfl, 500, _, rfl⟩

/-- Witness for C6 at a concrete input: a `text/plain` upload named
`a.txt` against the one-row state. -/
theorem c6_rejected_upload_leaves_no_persistence_witness :
    (({ filename := "a.txt", content_type := "text/plain", size := some 10 } : UploadFile).filename ≠ "" ∧
      pyStartsWith "text/plain" "image/" = false) ∧
    (((main_create_product chairState "Chair" none 49
        (some { filename := "a.txt", content_type := "text/plain", size := some 10 })).1 = chairState ∧
      ∃ st det, (main_create_product chairState "Chair" none 49
        (some { filename := "a.txt", content_type := "text/plain", size := some 10 })).2 =
        HandlerResult.httpError st det) ∧
     ((main_update_product chairState 1 "Chair" none 49
        (some { filename := "a.txt", content_type := "text/plain", size := some 10 })).1 = chairState ∧
      ∃ st det, (main_update_product chairState 1 "Chair" none 49
        (some { filename := "a.txt", content_type := "text/plain", size := some 10 })).2 =
        HandlerResult.httpError st det)) :=
  ⟨⟨by decide, by decide⟩,
    c6_rejected_upload_leaves_no_persistence chairState "Chair" none 49 1
      { filename := "a.txt", content_type := "text/plain", size := some 10 }
      (by decide) (Or.inl (by decide))⟩

/-- Claim C7: an update on an id with no matching row answers 404 and
performs no file-store mutation — the whole application state, upload
directory included, is returned unchanged. -/
theorem c7_update_nonexistent_id_404_no_mutation (s : AppState) (pid : Nat)
    (name : String) (description : Option String) (price : Int)
    (image : Option UploadFile) (h : crud_get_product s.db pid = none) :
    main_update_product s pid name description price image =
      (s, HandlerResult.httpError 404 "Produit non trouve") := by
  have hu := main_update_product_shape s pid name description price image
  rw [h] at hu
  exact hu

/-- Witness for C7 at a concrete input: id 1 against the empty state. -/
theorem c7_update_nonexistent_id_404_no_mutation_witness :
    crud_get_product emptyState.db 1 = none ∧
      main_update_product emptyState 1 "Chair" none 49 none =
        (emptyState, HandlerResult.httpError 404 "Produit non trouve") :=
  ⟨by decide,
    c7_update_nonexistent_id_404_no_mutation emptyState 1 "Chair" none 49 none (by decide)⟩

/-- Claim C8: the spec asserts delete returns whether the row existed,
removing row and image file on success.  The code half refutes this: on a
nonexistent id it does answer 404 with the state unchanged, but on an
existing id evaluating `existing_product.image` raises `AttributeError`,
the response is 500, and the row is never deleted — the state is exactly
unchanged. -/
theorem c8_delete_existing_row_fails_nonexistent_gives_404 :
    main_delete_product chairState 1 =
      (chairState, HandlerResult.httpError 500
        "Erreur lors de la suppression: Product object has no attribute image") ∧
    main_delete_product chairState 2 =
      (chairState, HandlerResult.httpError 404 "Produit non trouve") := by decide

/-- Claim C9: every saved upload is stored under a name made of a freshly
drawn unique identifier plus the original extension, the base name being
ignored; two successive uploads — identical original filenames allowed —
get distinct names and both files are present afterwards. -/
theorem c9_upload_names_fresh_and_keep_only_extension (s : AppState)
    (f1 f2 : UploadFile) (h1 : f1.filename ≠ "") (h2 : f2.filename ≠ "") :
    (save_upload_file s f1).2 =
      some { uuidId := s.uuidCounter, ext := splitextExt f1.filename } ∧
    (save_upload_file (save_upload_file s f1).1 f2).2 =
      some { uuidId := s.uuidCounter + 1, ext := splitextExt f2.filename } ∧
    ({ uuidId := s.uuidCounter, ext := splitextExt f1.filename } : StoredName) ≠
      { uuidId := s.uuidCounter + 1, ext := splitextExt f2.filename } ∧
    ({ uuidId := s.uuidCounter, ext := splitextExt f1.filename } : StoredName) ∈
      (save_upload_file (save_upload_file s f1).1 f2).1.files ∧
    ({ uuidId := s.uuidCounter + 1, ext := splitextExt f2.filename } : StoredName) ∈
      (save_upload_file (save_upload_file s f1).1 f2).1.files := by
  have e1 : save_upload_file s f1 =
      ({ s with
          files := insertFile s.files { uuidId := s.uuidCounter, ext := splitextExt f1.filename },
          uuidCounter := s.uuidCounter + 1 },
        some { uuidId := s.uuidCounter, ext := splitextExt f1.filename }) := by
    unfold save_upload_file
    rw [if_pos h1]
  rw [e1]
  have e2 : ∀ t : AppState, save_upload_file t f2 =
      ({ t with
          files := insertFile t.files { uuidId := t.uuidCounter, ext := splitextExt f2.filename },
          uuidCounter := t.uuidCounter + 1 },
        some { uuidId := t.uuidCounter, ext := splitextExt f2.filename }) := by
    intro t
    unfold save_upload_file
    rw [if_pos h2]
  rw [e2]
  refine ⟨rfl, rfl, ?_, ?_, ?_⟩
  · intro hEq
    have := congrArg StoredName.uuidId hEq
    simp only at this
    omega
  · exact mem_insertFile_of_mem _ (mem_insertFile_self _ _)
  · exact mem_insertFile_self _ _

/-- Witness for C9 at a concrete input: the same original filename
`photo.png` uploaded twice against the empty state. -/
theorem c9_upload_names_fresh_and_keep_only_extension_witness :
    (("photo.png" : String) ≠ "" ∧
      splitextExt "photo.png" = ".png") ∧
    ((save_upload_file emptyState
        { filename := "photo.png", content_type := "image/png", size := some 3 }).2 =
      some { uuidId := 0, ext := ".png" } ∧
    (save_upload_file (save_upload_file emptyState
        { filename := "photo.png", content_type := "image/png", size := some 3 }).1
        { filename := "photo.png", content_type := "image/png", size := some 3 }).2 =
      some { uuidId := 0 + 1, ext := ".png" } ∧
    ({ uuidId := 0, ext := ".png" } : StoredName) ≠ { uuidId := 0 + 1, ext := ".png" } ∧
    ({ uuidId := 0, ext := ".png" } : StoredName) ∈
      (save_upload_file (save_upload_file emptyState
        { filename := "photo.png", content_type := "image/png", size := some 3 }).1
        { filename := "photo.png", content_type := "image/png", size := some 3 }).1.files ∧
    ({ uuidId := 0 + 1, ext := ".png" } : StoredName) ∈
      (save_upload_file (save_upload_file emptyState
        { filename := "photo.png", content_type := "image/png", size := some 3 }).1
        { filename := "photo.png", content_type := "image/png", size := some 3 }).1.files) :=
  ⟨⟨by decide, by decide⟩,
    c9_upload_names_fresh_and_keep_only_extension emptyState
      { filename := "photo.png", content_type := "image/png", size := some 3 }
      { filename := "photo.png", content_type := "image/png", size := some 3 }
      (by decide) (by decide)⟩

/-- Claim C10: the spec (implicitly, from the code) asserts that an image
part with an empty filename is treated as no image: no validation, no file
written, image null on create and previous value kept on update.  The code
half refutes this: validation and the file write are indeed skipped and no
file is written, but no record results at all — create then raises
`TypeError` from the missing image column (the non-image content type
below would have produced the 400 detail had validation run, showing it
was skipped) and update raises `AttributeError` at `existing_product.image`;
both answer 500 with the state exactly unchanged. -/
theorem c10_empty_filename_skips_image_but_request_fails :
    main_create_product emptyState "Chair" none 49
        (some { filename := "", content_type := "application/octet-stream", size := none }) =
      (emptyState, HandlerResult.httpError 500
        "Erreur lors de la creation: image is an invalid keyword argument for Product") ∧
    main_update_product chairState 1 "Chair" (some "Oak") 49
        (some { filename := "", content_type := "application/octet-stream", size := none }) =
      (chairState, HandlerResult.httpError 500
        "Erreur lors de la mise a jour: Product object has no attribute image") := by decide
